import Mathlib

/-!
Shallow embedding of the OmniBAR reliability-map frontend core: the data
model and fetch hook from frontend/src/hooks/useReliabilityMapData.ts and
the radial layout, visual encoding, tooltip and rendering logic of the page
component frontend/src/pages/ReliabilityMap.tsx.  Numeric score fields are
modelled as rationals; canvas coordinates as real numbers.  The JavaScript
Map with last-write-wins insertion is modelled as an association list with
a fold-based lookup in which a later binding overrides an earlier one.
Truthiness tests of the source (score OR 0.8, score ? x : y, if (error))
are modelled by explicit comparisons with 0 and with the empty string.
-/

namespace OmniBar

/-- Node record, from the exported type Node in useReliabilityMapData.ts
(lines 3-11).  The derived x and y fields are computed output, not part of
the entity; score and lastRun are optional.  The type field is kept as a
plain string tag. -/
structure Node where
  id : String
  label : String
  type : String
  score : Option ℚ
  lastRun : Option String
deriving DecidableEq

/-- Link record, from the exported type Link in useReliabilityMapData.ts
(lines 13-18). -/
structure Link where
  source : String
  target : String
  strength : ℚ
  drift : ℚ
deriving DecidableEq

/-- Payload record, from the exported type ReliabilityMapData in
useReliabilityMapData.ts (lines 20-23). -/
structure ReliabilityMapData where
  nodes : List Node
  links : List Link
deriving DecidableEq

/-- Fixed canvas center x coordinate, ReliabilityMap.tsx line 14. -/
noncomputable def centerX : ℝ := 400

/-- Fixed canvas center y coordinate, ReliabilityMap.tsx line 15. -/
noncomputable def centerY : ℝ := 300

/-- Fixed ring radius, ReliabilityMap.tsx line 16. -/
noncomputable def radius : ℝ := 150

/-- Surrounding nodes: every node whose id is not "agent", in input order,
ReliabilityMap.tsx line 21. -/
def surroundingNodes (nodes : List Node) : List Node :=
  nodes.filter (fun n => n.id != "agent")

/-- Angle assigned to slot i out of n surrounding slots,
ReliabilityMap.tsx line 23. -/
noncomputable def angleOf (i n : ℕ) : ℝ :=
  ((i : ℝ) / (n : ℝ)) * (2 * Real.pi)

/-- Canvas position assigned to slot i out of n surrounding slots,
ReliabilityMap.tsx lines 24-25. -/
noncomputable def posOf (i n : ℕ) : ℝ × ℝ :=
  (centerX + radius * Real.cos (angleOf i n),
   centerY + radius * Real.sin (angleOf i n))

/-- Bindings produced by the forEach loop of ReliabilityMap.tsx lines
22-27: the node at running index i is bound to the slot-i position; n is
the total surrounding count fixed before the loop. -/
noncomputable def assignPositions (n : ℕ) : ℕ → List Node → List (String × (ℝ × ℝ))
  | _, [] => []
  | i, node :: rest => (node.id, posOf i n) :: assignPositions n (i + 1) rest

/-- The whole sequence of Map.set calls of the layout effect,
ReliabilityMap.tsx lines 18-27: first the unconditional agent binding to
the center, then one binding per surrounding node. -/
noncomputable def layout (nodes : List Node) : List (String × (ℝ × ℝ)) :=
  ("agent", (centerX, centerY)) ::
    assignPositions (surroundingNodes nodes).length 0 (surroundingNodes nodes)

/-- One step of Map lookup over the recorded set calls: a binding whose key
matches replaces the accumulated result. -/
def lookupStep {α : Type} (key : String) (acc : Option α) (e : String × α) : Option α :=
  if e.1 == key then some e.2 else acc

/-- Lookup over a suffix of set calls starting from an accumulated result. -/
def lookupFrom {α : Type} (key : String) (acc : Option α) (l : List (String × α)) : Option α :=
  l.foldl (lookupStep key) acc

/-- JavaScript Map.get: the value of the last set call with the given key,
none when no binding matches. -/
def mapLookup {α : Type} (l : List (String × α)) (key : String) : Option α :=
  lookupFrom key none l

/-- Guard of ReliabilityMap.tsx lines 76-78: a link element is produced
exactly when both endpoint ids resolve in the position map. -/
def linkRendered (positions : List (String × (ℝ × ℝ))) (l : Link) : Bool :=
  (mapLookup positions l.source).isSome && (mapLookup positions l.target).isSome

/-- Guard of ReliabilityMap.tsx lines 101-102: a node group is produced
exactly when the node id resolves in the position map. -/
def nodeRendered (positions : List (String × (ℝ × ℝ))) (n : Node) : Bool :=
  (mapLookup positions n.id).isSome

/-- Circle fill opacity, ReliabilityMap.tsx line 116: the JavaScript
expression node.score OR-ELSE 0.8, where a present score of 0 is falsy and
falls through to the default. -/
def nodeFillOpacity (n : Node) : ℚ :=
  match n.score with
  | some s => if s = 0 then 8 / 10 else s
  | none => 8 / 10

/-- Rounding performed by toFixed(0) on a nonnegative value: round half
up. -/
def jsToFixed0 (q : ℚ) : ℤ := ⌊q + 1 / 2⌋

/-- Percentage text (value * 100).toFixed(0) + "%" as used in the tooltip
and label strings. -/
def fmtPct (q : ℚ) : String := toString (jsToFixed0 (q * 100)) ++ "%"

/-- Score field of the node tooltip, ReliabilityMap.tsx line 107: the
conditional node.score ? percentage : "N/A", where a present score of 0 is
falsy. -/
def scoreText (n : Node) : String :=
  match n.score with
  | some s => if s = 0 then "N/A" else fmtPct s
  | none => "N/A"

/-- Percentage label element above a node, ReliabilityMap.tsx lines
131-141: produced only when node.score is truthy. -/
def scoreLabel (n : Node) : Option String :=
  match n.score with
  | some s => if s = 0 then none else some (fmtPct s)
  | none => none

/-- Link stroke width, ReliabilityMap.tsx line 92. -/
def linkStrokeWidth (l : Link) : ℚ := l.strength * 5

/-- Link opacity, ReliabilityMap.tsx line 93. -/
def linkOpacity (l : Link) : ℚ := 1 - l.drift

/-- Clamp a rational to the unit interval, used to state the clamping
language of the spec. -/
def clamp01 (q : ℚ) : ℚ := max 0 (min 1 q)

/-- State held by the hook useReliabilityMapData, lines 26-28. -/
structure HookState where
  data : Option ReliabilityMapData
  loading : Bool
  error : Option String
deriving DecidableEq

/-- Initial hook state: data null, loading true, error null. -/
def initialHookState : HookState :=
  { data := none, loading := true, error := none }

/-- Outcome of the one-shot fetch in useReliabilityMapData.ts lines 31-44:
either an HTTP response with a status and a parsed body, a rejection
carrying an Error instance with a message, or a rejection with a non-Error
value. -/
inductive FetchOutcome where
  | http (status : ℕ) (body : Option ReliabilityMapData)
  | rejectWith (message : String)
  | rejectNonError
deriving DecidableEq

/-- The response.ok flag: status in the 2xx range. -/
def responseOk (status : ℕ) : Bool := 200 ≤ status && status ≤ 299

/-- Hook state once the fetch settles, from the try-catch-finally of
useReliabilityMapData.ts lines 31-44: a non-ok response throws the fixed
message, a rejection with an Error surfaces its message, any other
rejection surfaces "Unknown error"; loading always ends false. -/
def settle : FetchOutcome → HookState
  | .http status body =>
      if responseOk status then { data := body, loading := false, error := none }
      else
        { data := none, loading := false,
          error := some "Failed to fetch reliability map data" }
  | .rejectWith message => { data := none, loading := false, error := some message }
  | .rejectNonError => { data := none, loading := false, error := some "Unknown error" }

/-- The four top-level screens of the page component. -/
inductive ViewState where
  | loadingView
  | errorView (message : String)
  | emptyView
  | readyView (payload : ReliabilityMapData)
deriving DecidableEq

/-- Branching of ReliabilityMap.tsx lines 32-57: loading first, then the
truthiness test if (error) in which an empty string is falsy, then the
no-data screen, then the ready scene. -/
def renderView (s : HookState) : ViewState :=
  if s.loading then ViewState.loadingView
  else
    match s.error with
    | some e =>
        if e = "" then
          match s.data with
          | some d => ViewState.readyView d
          | none => ViewState.emptyView
        else ViewState.errorView e
    | none =>
        match s.data with
        | some d => ViewState.readyView d
        | none => ViewState.emptyView

/-- Sample node list with an agent node and two surrounding nodes, used by
concrete witnesses. -/
def witnessNodes : List Node :=
  [⟨"agent", "Active Agent", "agent", some (17 / 20), none⟩,
   ⟨"s1", "Suite 1", "suite", some (4 / 5), none⟩,
   ⟨"s2", "Suite 2", "suite", none, none⟩]

/-- Sample node list with no agent node. -/
def noAgentNodes : List Node :=
  [⟨"s1", "Suite 1", "suite", some (1 / 2), none⟩]

/-- Sample payload whose only link targets the absent id "agent". -/
def danglingAgentData : ReliabilityMapData :=
  ⟨[⟨"s1", "Suite 1", "suite", none, none⟩], [⟨"s1", "agent", 1, 0⟩]⟩

/-- Sample payload with one link to a ghost id and one resolvable link. -/
def mixedLinksData : ReliabilityMapData :=
  ⟨[⟨"agent", "Active Agent", "agent", some (17 / 20), none⟩,
    ⟨"s1", "Suite 1", "suite", none, none⟩],
   [⟨"agent", "ghost", 1, 0⟩, ⟨"agent", "s1", 1, 0⟩]⟩

/-- Sample payload with no agent node but a link from the id "agent". -/
def ghostAgentLinkData : ReliabilityMapData :=
  ⟨[⟨"s1", "Suite 1", "suite", none, none⟩], [⟨"agent", "s1", 1, 0⟩]⟩

/-- Sample node list in which two surrounding nodes share one id. -/
def duplicateIdNodes : List Node :=
  [⟨"agent", "Active Agent", "agent", some (17 / 20), none⟩,
   ⟨"dup", "First", "suite", some (3 / 5), none⟩,
   ⟨"dup", "Second", "suite", some (4 / 5), none⟩,
   ⟨"s3", "Third", "persona", none, none⟩]

/-! Lookup lemmas for the last-write-wins association list. -/

theorem lookupFrom_cons {α : Type} (key : String) (acc : Option α) (e : String × α)
    (l : List (String × α)) :
    lookupFrom key acc (e :: l) = lookupFrom key (lookupStep key acc e) l := rfl

theorem lookupFrom_append {α : Type} (key : String) (acc : Option α)
    (l₁ l₂ : List (String × α)) :
    lookupFrom key acc (l₁ ++ l₂) = lookupFrom key (lookupFrom key acc l₁) l₂ := by
  simp [lookupFrom, List.foldl_append]

theorem lookupFrom_of_not_mem {α : Type} (key : String) (acc : Option α)
    (l : List (String × α)) (h : key ∉ l.map Prod.fst) :
    lookupFrom key acc l = acc := by
  induction l generalizing acc with
  | nil => rfl
  | cons e l ih =>
      rw [lookupFrom_cons]
      have h1 : e.1 ≠ key := by
        intro he
        exact h (by simp [he])
      have h2 : key ∉ l.map Prod.fst := fun hm => h (by simp [hm])
      rw [ih _ h2]
      simp [lookupStep, h1]

theorem lookupFrom_isSome {α : Type} (key : String) (acc : Option α)
    (l : List (String × α)) :
    (lookupFrom key acc l).isSome = true ↔
      key ∈ l.map Prod.fst ∨ acc.isSome = true := by
  induction l generalizing acc with
  | nil => simp [lookupFrom]
  | cons e l ih =>
      rw [lookupFrom_cons, ih]
      by_cases he : e.1 = key
      · simp [lookupStep, he]
      · have he' : ¬ key = e.1 := fun h => he h.symm
        simp [lookupStep, he, he']

/-! Structure lemmas for the surrounding-node position bindings. -/

theorem assignPositions_cons (n i : ℕ) (node : Node) (rest : List Node) :
    assignPositions n i (node :: rest) =
      (node.id, posOf i n) :: assignPositions n (i + 1) rest := rfl

theorem assignPositions_append (n k : ℕ) (l₁ l₂ : List Node) :
    assignPositions n k (l₁ ++ l₂) =
      assignPositions n k l₁ ++ assignPositions n (k + l₁.length) l₂ := by
  induction l₁ generalizing k with
  | nil => simp [assignPositions]
  | cons node rest ih =>
      have harith : k + 1 + rest.length = k + (rest.length + 1) := by omega
      simp only [List.cons_append, assignPositions_cons, ih, List.length_cons]
      rw [harith]

theorem assignPositions_keys (n k : ℕ) (l : List Node) :
    (assignPositions n k l).map Prod.fst = l.map Node.id := by
  induction l generalizing k with
  | nil => rfl
  | cons node rest ih => simp [assignPositions_cons, ih]

theorem mem_surrounding_ne_agent {nodes : List Node} {x : Node}
    (h : x ∈ surroundingNodes nodes) : x.id ≠ "agent" := by
  have hx := List.mem_filter.mp h
  simpa using hx.2

theorem agent_not_mem_surrounding_ids (nodes : List Node) :
    "agent" ∉ (surroundingNodes nodes).map Node.id := by
  intro h
  rcases List.mem_map.mp h with ⟨x, hx, hid⟩
  exact mem_surrounding_ne_agent hx hid

theorem mem_surrounding_of_mem {nodes : List Node} {x : Node}
    (hx : x ∈ nodes) (hne : x.id ≠ "agent") : x ∈ surroundingNodes nodes := by
  refine List.mem_filter.mpr ⟨hx, ?_⟩
  simpa using hne

/-! Lookup behaviour of the complete layout map. -/

theorem layout_lookup_agent (nodes : List Node) :
    mapLookup (layout nodes) "agent" = some (centerX, centerY) := by
  unfold mapLookup layout
  rw [lookupFrom_cons]
  have hstep : lookupStep "agent" (none : Option (ℝ × ℝ)) ("agent", (centerX, centerY)) =
      some (centerX, centerY) := rfl
  rw [hstep]
  apply lookupFrom_of_not_mem
  rw [assignPositions_keys]
  exact agent_not_mem_surrounding_ids nodes

theorem layout_lookup_ne_agent (nodes : List Node) (key : String) (hk : key ≠ "agent") :
    mapLookup (layout nodes) key =
      lookupFrom key none
        (assignPositions (surroundingNodes nodes).length 0 (surroundingNodes nodes)) := by
  unfold mapLookup layout
  rw [lookupFrom_cons]
  have hstep : lookupStep key (none : Option (ℝ × ℝ)) ("agent", (centerX, centerY)) = none := by
    simp [lookupStep, Ne.symm hk]
  rw [hstep]

theorem lookupFrom_assign_last (n k : ℕ) (l₁ l₂ : List Node) (b : Node)
    (acc : Option (ℝ × ℝ)) (hlast : b.id ∉ l₂.map Node.id) :
    lookupFrom b.id acc (assignPositions n k (l₁ ++ b :: l₂)) =
      some (posOf (k + l₁.length) n) := by
  rw [assignPositions_append, lookupFrom_append, assignPositions_cons, lookupFrom_cons]
  have hstep : lookupStep b.id (lookupFrom b.id acc (assignPositions n k l₁))
      (b.id, posOf (k + l₁.length) n) = some (posOf (k + l₁.length) n) := by
    simp [lookupStep]
  rw [hstep]
  apply lookupFrom_of_not_mem
  rw [assignPositions_keys]
  exact hlast

theorem layout_lookup_isSome (nodes : List Node) (key : String) :
    (mapLookup (layout nodes) key).isSome = true ↔
      key = "agent" ∨ key ∈ nodes.map Node.id := by
  unfold mapLookup layout
  rw [lookupFrom_cons, lookupFrom_isSome, assignPositions_keys]
  by_cases hk : key = "agent"
  · subst hk
    simp [lookupStep]
  · constructor
    · rintro (hmem | hsome)
      · right
        rcases List.mem_map.mp hmem with ⟨x, hx, hid⟩
        exact List.mem_map.mpr ⟨x, (List.mem_filter.mp hx).1, hid⟩
      · exfalso
        simp [lookupStep, Ne.symm hk] at hsome
    · rintro (h | hmem)
      · exact absurd h hk
      · left
        rcases List.mem_map.mp hmem with ⟨x, hx, hid⟩
        refine List.mem_map.mpr ⟨x, mem_surrounding_of_mem hx ?_, hid⟩
        rw [hid]
        exact hk

theorem surrounding_ids_nodup {nodes : List Node}
    (hnodup : (nodes.map Node.id).Nodup) :
    ((surroundingNodes nodes).map Node.id).Nodup := by
  have hsub : List.Sublist (surroundingNodes nodes) nodes := List.filter_sublist nodes
  exact List.Nodup.sublist (List.Sublist.map Node.id hsub) hnodup

theorem layout_lookup_slot (nodes : List Node) (i : ℕ)
    (hi : i < (surroundingNodes nodes).length)
    (hnodup : (nodes.map Node.id).Nodup) :
    mapLookup (layout nodes) ((surroundingNodes nodes).get ⟨i, hi⟩).id =
      some (posOf i (surroundingNodes nodes).length) := by
  have hbmem : (surroundingNodes nodes).get ⟨i, hi⟩ ∈ surroundingNodes nodes :=
    List.get_mem _ _ _
  have hbne := mem_surrounding_ne_agent hbmem
  rw [layout_lookup_ne_agent nodes _ hbne]
  have hdecomp : surroundingNodes nodes =
      (surroundingNodes nodes).take i ++
        (surroundingNodes nodes).get ⟨i, hi⟩ :: (surroundingNodes nodes).drop (i + 1) := by
    conv_lhs => rw [← List.take_append_drop i (surroundingNodes nodes)]
    congr 1
    exact List.drop_eq_getElem_cons hi
  have hsnodup := surrounding_ids_nodup hnodup
  have hlist : (((surroundingNodes nodes).take i).map Node.id ++
      ((surroundingNodes nodes).get ⟨i, hi⟩).id ::
        ((surroundingNodes nodes).drop (i + 1)).map Node.id).Nodup := by
    rw [← List.map_cons, ← List.map_append, ← hdecomp]
    exact hsnodup
  have hlast : ((surroundingNodes nodes).get ⟨i, hi⟩).id ∉
      ((surroundingNodes nodes).drop (i + 1)).map Node.id :=
    (List.nodup_cons.mp hlist.of_append_right).1
  have hmain := lookupFrom_assign_last (surroundingNodes nodes).length 0
    ((surroundingNodes nodes).take i) ((surroundingNodes nodes).drop (i + 1))
    ((surroundingNodes nodes).get ⟨i, hi⟩) none hlast
  have hlen : 0 + ((surroundingNodes nodes).take i).length = i := by
    rw [List.length_take, Nat.min_eq_left (le_of_lt hi), Nat.zero_add]
  rw [hlen] at hmain
  rw [← hdecomp] at hmain
  exact hmain

/-! Claim theorems. -/

/-- Claim C1: for every payload whose node ids are unique (the stated
data-model invariant), the layout maps the id "agent" to the fixed canvas
center (400, 300) regardless of node count or order, also when there are
zero surrounding nodes; and it maps the id of the i-th (0-indexed, input
order) of the n surrounding nodes to (400 + 150 cos t, 300 + 150 sin t)
with t = (i / n) * 2 * pi. -/
theorem c1_radial_layout (data : ReliabilityMapData)
    (hnodup : (data.nodes.map Node.id).Nodup) :
    mapLookup (layout data.nodes) "agent" = some ((400 : ℝ), (300 : ℝ)) ∧
    ∀ i n : ℕ, n = (surroundingNodes data.nodes).length →
      ∀ hi : i < (surroundingNodes data.nodes).length,
      mapLookup (layout data.nodes) ((surroundingNodes data.nodes).get ⟨i, hi⟩).id =
        some (400 + 150 * Real.cos (((i : ℝ) / (n : ℝ)) * (2 * Real.pi)),
              300 + 150 * Real.sin (((i : ℝ) / (n : ℝ)) * (2 * Real.pi))) := by
  constructor
  · simpa [centerX, centerY] using layout_lookup_agent data.nodes
  · intro i n hn hi
    subst hn
    have h := layout_lookup_slot data.nodes i hi hnodup
    simpa [posOf, angleOf, centerX, centerY, radius] using h

/-- Witness for C1 on concrete payloads: an agent-only payload with zero
surrounding nodes still centers the agent id at (400, 300), and on a
payload with two surrounding nodes the first sits at angle zero, that is
at (400 + 150, 300). -/
theorem c1_witness :
    mapLookup (layout [⟨"agent", "Active Agent", "agent", some (17 / 20), none⟩]) "agent" =
      some ((400 : ℝ), (300 : ℝ)) ∧
    mapLookup (layout witnessNodes) "agent" = some ((400 : ℝ), (300 : ℝ)) ∧
    mapLookup (layout witnessNodes) "s1" = some ((550 : ℝ), (300 : ℝ)) := by
  have h0 := c1_radial_layout
    ⟨[⟨"agent", "Active Agent", "agent", some (17 / 20), none⟩], []⟩ (by decide)
  have h := c1_radial_layout ⟨witnessNodes, []⟩ (by decide)
  refine ⟨h0.1, h.1, ?_⟩
  have h2 := h.2 0 2 rfl (by decide)
  norm_num [Real.cos_zero, Real.sin_zero] at h2
  exact h2

/-- Counterexample to C2 as stated: a node with a present score of exactly
0 gets fill opacity 0.8, not its score 0, because the source expression
node.score OR-ELSE 0.8 treats 0 as falsy. -/
theorem c2_counterexample :
    nodeFillOpacity ⟨"s1", "Suite 1", "suite", some 0, none⟩ = 8 / 10 ∧
    nodeFillOpacity ⟨"s1", "Suite 1", "suite", some 0, none⟩ ≠ 0 := by
  refine ⟨by norm_num [nodeFillOpacity], by norm_num [nodeFillOpacity]⟩

/-- Claim C2 as amended: fill opacity equals the score whenever the score
is present and nonzero, and equals the default 0.8 when the score is
absent or is a present 0; it is never 0 or undefined for a node lacking a
score. -/
theorem c2_fill_opacity (node : Node) :
    (∀ s : ℚ, node.score = some s → s ≠ 0 → nodeFillOpacity node = s) ∧
    (node.score = none → nodeFillOpacity node = 8 / 10) ∧
    (node.score = some 0 → nodeFillOpacity node = 8 / 10) := by
  refine ⟨?_, ?_, ?_⟩
  · intro s hs hne
    simp [nodeFillOpacity, hs, hne]
  · intro hs
    simp [nodeFillOpacity, hs]
  · intro hs
    simp [nodeFillOpacity, hs]

/-- Witness for the amended C2 on concrete nodes with a nonzero score, no
score, and a zero score. -/
theorem c2_witness :
    nodeFillOpacity ⟨"a", "A", "suite", some (9 / 10), none⟩ = 9 / 10 ∧
    nodeFillOpacity ⟨"b", "B", "suite", none, none⟩ = 8 / 10 ∧
    nodeFillOpacity ⟨"c", "C", "suite", some 0, none⟩ = 8 / 10 :=
  ⟨(c2_fill_opacity _).1 (9 / 10) rfl (by norm_num),
   (c2_fill_opacity _).2.1 rfl,
   (c2_fill_opacity _).2.2 rfl⟩

/-- Counterexample to C3 as stated: a node whose score is a measured 0
renders the tooltip score field "N/A", not "0%", because the conditional
node.score ? x : y treats 0 as falsy. -/
theorem c3_counterexample :
    scoreText ⟨"s1", "Suite 1", "suite", some 0, none⟩ = "N/A" ∧
    scoreText ⟨"s1", "Suite 1", "suite", some 0, none⟩ ≠ "0%" := by
  refine ⟨rfl, ?_⟩
  decide

/-- Claim C3 as amended: a present nonzero score renders as the rounded
percentage with a "%" suffix, while an absent score or a present score of
exactly 0 renders as the literal string "N/A". -/
theorem c3_tooltip_format (node : Node) :
    (∀ s : ℚ, node.score = some s → s ≠ 0 →
      scoreText node = toString (jsToFixed0 (s * 100)) ++ "%") ∧
    (node.score = none → scoreText node = "N/A") ∧
    (node.score = some 0 → scoreText node = "N/A") := by
  refine ⟨?_, ?_, ?_⟩
  · intro s hs hne
    simp [scoreText, hs, hne, fmtPct]
  · intro hs
    simp [scoreText, hs]
  · intro hs
    simp [scoreText, hs]

/-- Witness for the amended C3: a score of 0.85 renders "85%", while an
absent and a zero score render "N/A". -/
theorem c3_witness :
    scoreText ⟨"a", "A", "suite", some (17 / 20), none⟩ = "85%" ∧
    scoreText ⟨"b", "B", "suite", none, none⟩ = "N/A" ∧
    scoreText ⟨"c", "C", "suite", some 0, none⟩ = "N/A" := by
  refine ⟨?_, (c3_tooltip_format _).2.1 rfl, (c3_tooltip_format _).2.2 rfl⟩
  have h := (c3_tooltip_format ⟨"a", "A", "suite", some (17 / 20), none⟩).1
    (17 / 20) rfl (by norm_num)
  rw [h]
  have hint : jsToFixed0 ((17 : ℚ) / 20 * 100) = 85 := by
    norm_num [jsToFixed0]
  rw [hint]
  rfl

/-- Claim C4: for every link with strength and drift in the unit interval,
the stroke width is the fixed multiple 5 of strength, hence linear,
non-decreasing in strength, and ranging from 0 at strength 0 to 5 at
strength 1; the opacity equals 1 - drift, which coincides with its clamp
to the unit interval. -/
theorem c4_link_encoding (l l' : Link)
    (hmono : l.strength ≤ l'.strength)
    (hs0 : 0 ≤ l.strength) (hs1 : l.strength ≤ 1)
    (hd0 : 0 ≤ l.drift) (hd1 : l.drift ≤ 1) :
    linkStrokeWidth l = l.strength * 5 ∧
    linkStrokeWidth l ≤ linkStrokeWidth l' ∧
    0 ≤ linkStrokeWidth l ∧ linkStrokeWidth l ≤ 5 ∧
    linkOpacity l = 1 - l.drift ∧
    clamp01 (linkOpacity l) = linkOpacity l := by
  refine ⟨rfl, ?_, ?_, ?_, rfl, ?_⟩
  · exact mul_le_mul_of_nonneg_right hmono (by norm_num)
  · unfold linkStrokeWidth
    linarith
  · unfold linkStrokeWidth
    linarith
  · unfold clamp01 linkOpacity
    have h1 : 1 - l.drift ≤ 1 := by linarith
    have h2 : (0 : ℚ) ≤ 1 - l.drift := by linarith
    rw [min_eq_right h1, max_eq_right h2]

/-- Witness for C4 on concrete links: strength 0.4 gives width 2, width is
below that of a strength 0.8 link, and drift 0.1 gives opacity 0.9, equal
to its clamp. -/
theorem c4_witness :
    linkStrokeWidth ⟨"a", "b", 2 / 5, 1 / 10⟩ = 2 ∧
    linkStrokeWidth ⟨"a", "b", 2 / 5, 1 / 10⟩ ≤ linkStrokeWidth ⟨"a", "b", 4 / 5, 0⟩ ∧
    linkOpacity ⟨"a", "b", 2 / 5, 1 / 10⟩ = 9 / 10 ∧
    clamp01 (linkOpacity ⟨"a", "b", 2 / 5, 1 / 10⟩) = linkOpacity ⟨"a", "b", 2 / 5, 1 / 10⟩ := by
  have h := c4_link_encoding ⟨"a", "b", 2 / 5, 1 / 10⟩ ⟨"a", "b", 4 / 5, 0⟩
    (by norm_num) (by norm_num) (by norm_num) (by norm_num) (by norm_num)
  refine ⟨?_, h.2.1, ?_, h.2.2.2.2.2⟩
  · rw [h.1]
    norm_num
  · rw [h.2.2.2.2.1]
    norm_num

/-- Counterexample to C5 as stated: in a payload whose node set lacks the
id "agent", a link whose target is "agent" is still rendered, because the
position map always holds an "agent" binding. -/
theorem c5_counterexample :
    ("agent" ∉ danglingAgentData.nodes.map Node.id) ∧
    linkRendered (layout danglingAgentData.nodes) ⟨"s1", "agent", 1, 0⟩ = true := by
  refine ⟨by decide, ?_⟩
  rfl

/-- Claim C5 as amended: a link is excluded exactly when one of its
endpoint ids is both different from "agent" and absent from the node id
set; every link with both endpoints in the node id set or equal to
"agent" renders, and every node of the payload renders. -/
theorem c5_dangling_links (data : ReliabilityMapData) (l : Link)
    (h : (l.source ≠ "agent" ∧ l.source ∉ data.nodes.map Node.id) ∨
         (l.target ≠ "agent" ∧ l.target ∉ data.nodes.map Node.id)) :
    linkRendered (layout data.nodes) l = false ∧
    (∀ l' : Link, (l'.source = "agent" ∨ l'.source ∈ data.nodes.map Node.id) →
      (l'.target = "agent" ∨ l'.target ∈ data.nodes.map Node.id) →
      linkRendered (layout data.nodes) l' = true) ∧
    (∀ node ∈ data.nodes, nodeRendered (layout data.nodes) node = true) := by
  refine ⟨?_, ?_, ?_⟩
  · unfold linkRendered
    rcases h with ⟨hne, hmem⟩ | ⟨hne, hmem⟩
    · have hfalse : (mapLookup (layout data.nodes) l.source).isSome = false := by
        cases hcase : (mapLookup (layout data.nodes) l.source).isSome with
        | false => rfl
        | true =>
            rcases (layout_lookup_isSome data.nodes l.source).mp hcase with h1 | h1
            · exact absurd h1 hne
            · exact absurd h1 hmem
      simp [hfalse]
    · have hfalse : (mapLookup (layout data.nodes) l.target).isSome = false := by
        cases hcase : (mapLookup (layout data.nodes) l.target).isSome with
        | false => rfl
        | true =>
            rcases (layout_lookup_isSome data.nodes l.target).mp hcase with h1 | h1
            · exact absurd h1 hne
            · exact absurd h1 hmem
      simp [hfalse]
  · intro l' hs ht
    unfold linkRendered
    rw [Bool.and_eq_true]
    exact ⟨(layout_lookup_isSome data.nodes l'.source).mpr hs,
      (layout_lookup_isSome data.nodes l'.target).mpr ht⟩
  · intro node hnode
    unfold nodeRendered
    exact (layout_lookup_isSome data.nodes node.id).mpr
      (Or.inr (List.mem_map_of_mem Node.id hnode))

/-- Witness for the amended C5 on a concrete payload: the link to the
ghost id is dropped while the resolvable link and a payload node still
render. -/
theorem c5_witness :
    linkRendered (layout mixedLinksData.nodes) ⟨"agent", "ghost", 1, 0⟩ = false ∧
    linkRendered (layout mixedLinksData.nodes) ⟨"agent", "s1", 1, 0⟩ = true ∧
    nodeRendered (layout mixedLinksData.nodes) ⟨"s1", "Suite 1", "suite", none, none⟩ = true := by
  have h := c5_dangling_links mixedLinksData ⟨"agent", "ghost", 1, 0⟩
    (Or.inr ⟨by decide, by decide⟩)
  exact ⟨h.1, h.2.1 ⟨"agent", "s1", 1, 0⟩ (Or.inl rfl) (Or.inr (by decide)),
    h.2.2 ⟨"s1", "Suite 1", "suite", none, none⟩ (by decide)⟩

/-- Counterexample to C6 as stated: on a payload with no node of id
"agent" the layout does not signal any condition; it silently inserts the
default center binding "agent" to (400, 300). -/
theorem c6_counterexample :
    ("agent" ∉ noAgentNodes.map Node.id) ∧
    mapLookup (layout noAgentNodes) "agent" = some ((400 : ℝ), (300 : ℝ)) := by
  refine ⟨by decide, ?_⟩
  exact layout_lookup_agent noAgentNodes

/-- Claim C6 as amended: for every payload containing no node with id
"agent", the layout silently defaults the center: the position map still
binds "agent" to (400, 300), and no MissingCenterNode condition exists in
the pass, which is a total function. -/
theorem c6_silent_center_default (nodes : List Node)
    (_h : "agent" ∉ nodes.map Node.id) :
    mapLookup (layout nodes) "agent" = some ((400 : ℝ), (300 : ℝ)) := by
  simpa [centerX, centerY] using layout_lookup_agent nodes

/-- Witness for the amended C6 on a concrete agent-less payload. -/
theorem c6_witness :
    mapLookup (layout [⟨"p1", "Persona 1", "persona", none, none⟩]) "agent" =
      some ((400 : ℝ), (300 : ℝ)) :=
  c6_silent_center_default [⟨"p1", "Persona 1", "persona", none, none⟩] (by decide)

/-- Counterexample to C7 as stated: a rejection carrying an Error whose
message is the empty string leaves the view in the Empty state, not the
Error state, because the view test if (error) treats the empty string as
falsy. -/
theorem c7_counterexample :
    renderView (settle (FetchOutcome.rejectWith "")) = ViewState.emptyView ∧
    ViewState.emptyView ≠ ViewState.errorView "" := by
  exact ⟨rfl, by decide⟩

/-- Claim C7 as amended: a non-2xx response yields the Error view with
exactly the message "Failed to fetch reliability map data"; a rejection
whose Error message is nonempty yields the Error view showing that message
verbatim; a rejection with a non-Error value yields the Error view showing
"Unknown error". -/
theorem c7_error_state (status : ℕ) (body : Option ReliabilityMapData) (message : String)
    (hstatus : responseOk status = false) (hmsg : message ≠ "") :
    renderView (settle (FetchOutcome.http status body)) =
      ViewState.errorView "Failed to fetch reliability map data" ∧
    renderView (settle (FetchOutcome.rejectWith message)) = ViewState.errorView message ∧
    renderView (settle FetchOutcome.rejectNonError) = ViewState.errorView "Unknown error" := by
  refine ⟨?_, ?_, rfl⟩
  · simp only [settle]
    rw [hstatus]
    rfl
  · simp [settle, renderView, hmsg]

/-- Witness for the amended C7: status 500 yields the fixed fetch-failure
message, a rejection with message "boom" surfaces it verbatim, and a
non-Error rejection surfaces "Unknown error". -/
theorem c7_witness :
    renderView (settle (FetchOutcome.http 500 none)) =
      ViewState.errorView "Failed to fetch reliability map data" ∧
    renderView (settle (FetchOutcome.rejectWith "boom")) = ViewState.errorView "boom" ∧
    renderView (settle FetchOutcome.rejectNonError) = ViewState.errorView "Unknown error" :=
  c7_error_state 500 none "boom" (by decide) (by decide)

/-- Claim C8: for every payload, also one with no node of id "agent", the
computed position map binds the key "agent" to exactly (400, 300), so a
link endpoint equal to "agent" always resolves: a link whose source or
target is "agent" and whose other endpoint is "agent" or a node id of the
payload is rendered even when no node with id "agent" exists. -/
theorem c8_agent_binding (data : ReliabilityMapData) :
    mapLookup (layout data.nodes) "agent" = some ((400 : ℝ), (300 : ℝ)) ∧
    (∀ l : Link, l.source = "agent" →
      (l.target = "agent" ∨ l.target ∈ data.nodes.map Node.id) →
      linkRendered (layout data.nodes) l = true) ∧
    (∀ l : Link, l.target = "agent" →
      (l.source = "agent" ∨ l.source ∈ data.nodes.map Node.id) →
      linkRendered (layout data.nodes) l = true) := by
  refine ⟨?_, ?_, ?_⟩
  · simpa [centerX, centerY] using layout_lookup_agent data.nodes
  · intro l hs ht
    unfold linkRendered
    rw [Bool.and_eq_true]
    refine ⟨?_, (layout_lookup_isSome data.nodes l.target).mpr ht⟩
    rw [hs]
    exact (layout_lookup_isSome data.nodes "agent").mpr (Or.inl rfl)
  · intro l ht hs
    unfold linkRendered
    rw [Bool.and_eq_true]
    refine ⟨(layout_lookup_isSome data.nodes l.source).mpr hs, ?_⟩
    rw [ht]
    exact (layout_lookup_isSome data.nodes "agent").mpr (Or.inl rfl)

/-- Witness for C8 on a concrete payload with no agent node: the position
map still holds the agent binding and the link from "agent" to the real
node "s1" is rendered. -/
theorem c8_witness :
    mapLookup (layout ghostAgentLinkData.nodes) "agent" = some ((400 : ℝ), (300 : ℝ)) ∧
    linkRendered (layout ghostAgentLinkData.nodes) ⟨"agent", "s1", 1, 0⟩ = true := by
  have h := c8_agent_binding ghostAgentLinkData
  exact ⟨h.1, h.2.1 ⟨"agent", "s1", 1, 0⟩ rfl (Or.inr (by decide))⟩

/-- Claim C9: a node whose score is a present 0 renders exactly like a
node with an absent score: fill opacity 0.8, tooltip score field "N/A",
and no percentage label, so a measured zero is indistinguishable from an
unmeasured score. -/
theorem c9_zero_score_indistinguishable (zn an : Node)
    (hz : zn.score = some 0) (ha : an.score = none) :
    nodeFillOpacity zn = nodeFillOpacity an ∧
    nodeFillOpacity zn = 8 / 10 ∧
    scoreText zn = "N/A" ∧ scoreText an = "N/A" ∧
    scoreLabel zn = none ∧ scoreLabel an = none := by
  refine ⟨?_, ?_, ?_, ?_, ?_, ?_⟩ <;>
    simp [nodeFillOpacity, scoreText, scoreLabel, hz, ha]

/-- Witness for C9 on concrete nodes with score 0 and no score. -/
theorem c9_witness :
    nodeFillOpacity ⟨"z", "Zero", "suite", some 0, none⟩ =
      nodeFillOpacity ⟨"m", "Missing", "memory", none, none⟩ ∧
    scoreText ⟨"z", "Zero", "suite", some 0, none⟩ = "N/A" ∧
    scoreLabel ⟨"z", "Zero", "suite", some 0, none⟩ = none := by
  have h := c9_zero_score_indistinguishable ⟨"z", "Zero", "suite", some 0, none⟩
    ⟨"m", "Missing", "memory", none, none⟩ rfl rfl
  exact ⟨h.1, h.2.2.1, h.2.2.2.2.1⟩

/-- Claim C10: a payload in which two surrounding nodes share one id is
accepted with no MalformedPayload condition: the fetch-render pipeline
reaches the Ready view; each occurrence consumes its own angular slot of
the n surrounding slots (n counts both occurrences), but the position map
keyed by id retains only the slot of the last occurrence, so both
occurrences render at that single position. -/
theorem c10_duplicate_ids (data : ReliabilityMapData) (p q r : List Node) (a b : Node)
    (hsplit : surroundingNodes data.nodes = p ++ a :: (q ++ b :: r))
    (hid : a.id = b.id)
    (hlast : b.id ∉ r.map Node.id) :
    mapLookup (layout data.nodes) b.id =
      some (posOf (p.length + 1 + q.length) (surroundingNodes data.nodes).length) ∧
    mapLookup (layout data.nodes) a.id = mapLookup (layout data.nodes) b.id ∧
    renderView (settle (FetchOutcome.http 200 (some data))) = ViewState.readyView data := by
  have hbmem : b ∈ surroundingNodes data.nodes := by
    rw [hsplit]
    simp
  have hbne := mem_surrounding_ne_agent hbmem
  refine ⟨?_, by rw [hid], rfl⟩
  rw [layout_lookup_ne_agent data.nodes b.id hbne]
  have hassign :
      assignPositions (surroundingNodes data.nodes).length 0 (surroundingNodes data.nodes) =
        assignPositions (surroundingNodes data.nodes).length 0 (p ++ a :: (q ++ b :: r)) := by
    rw [← hsplit]
  rw [hassign]
  have hlists : p ++ a :: (q ++ b :: r) = (p ++ a :: q) ++ b :: r := by
    simp
  rw [hlists]
  rw [lookupFrom_assign_last (surroundingNodes data.nodes).length 0 (p ++ a :: q) r b none hlast]
  have hlen : 0 + (p ++ a :: q).length = p.length + 1 + q.length := by
    simp only [List.length_append, List.length_cons]
    omega
  rw [hlen]

/-- Witness for C10 on a concrete payload with the id "dup" at surrounding
slots 0 and 1 of 3: the position map keeps slot 1, and the payload still
reaches the Ready view. -/
theorem c10_witness :
    mapLookup (layout duplicateIdNodes) "dup" = some (posOf 1 3) ∧
    renderView (settle (FetchOutcome.http 200 (some ⟨duplicateIdNodes, []⟩))) =
      ViewState.readyView ⟨duplicateIdNodes, []⟩ := by
  have h := c10_duplicate_ids ⟨duplicateIdNodes, []⟩ [] []
    [⟨"s3", "Third", "persona", none, none⟩]
    ⟨"dup", "First", "suite", some (3 / 5), none⟩
    ⟨"dup", "Second", "suite", some (4 / 5), none⟩
    rfl rfl (by decide)
  exact ⟨h.1, h.2.2⟩

end OmniBar
